import Mathlib

/-!
Verification of the DIAOS temporal-worker research agent.

Shallow embedding of:
* `src/activities/tool_registry_activities.py` (tool catalog + validator),
* `src/tools/registry.py` (the second, near-duplicate validator),
* `src/activities/dynamic_tool_activity.py` (tool dispatcher),
* `src/workflows/research_workflow.py` (agent loop + context accumulator).

Python dictionaries are modelled as association lists (`Args`), Python
values as the inductive `PyVal`, and Python truthiness as `truthy`.
External collaborators (the LLM activities and the concrete tool
implementations, which perform network and file IO) are parameters of the
embedded workflow; the validator and dispatcher logic is translated
directly from the source.
-/

namespace DIAOS

/-- A Python value, as far as the validated/merged data is concerned. -/
inductive PyVal where
  | vStr : String → PyVal
  | vInt : Int → PyVal
  | vBool : Bool → PyVal
  | vNull : PyVal
  | vList : List PyVal → PyVal
  | vDict : List (String × PyVal) → PyVal

/-- Python truthiness of a value (`bool(v)`). -/
def truthy : PyVal → Bool
  | .vStr s => !(s == "")
  | .vInt n => !(n == 0)
  | .vBool b => b
  | .vNull => false
  | .vList l => !l.isEmpty
  | .vDict l => !l.isEmpty

/-- A Python `dict` with string keys, as an association list (first key wins,
matching a dict's unique keys). -/
abbrev Args := List (String × PyVal)

/-- `key in d` for a Python dict. -/
def argsHas (a : Args) (k : String) : Bool :=
  a.any (fun p => p.1 == k)

/-- `d.get(key)` for a Python dict (`none` models Python `None` for a
missing key). -/
def argsGet (a : Args) (k : String) : Option PyVal :=
  (a.find? (fun p => p.1 == k)).map Prod.snd

/-- Truthiness of `d.get(key)`: a missing key is `None`, which is falsy. -/
def truthyGet (a : Args) (k : String) : Bool :=
  ((argsGet a k).map truthy).getD false

/-- Whether the character list `p` is an initial segment of `s`
(structurally recursive so the kernel can evaluate it). -/
def charsStartWith : List Char → List Char → Bool
  | _, [] => true
  | [], _ :: _ => false
  | c :: cs, p :: ps => c == p && charsStartWith cs ps

/-- Whether the character list `pat` occurs contiguously in `s`. -/
def charsContain : List Char → List Char → Bool
  | s, pat =>
    charsStartWith s pat ||
      (match s with
       | [] => false
       | _ :: cs => charsContain cs pat)

/-- Substring test: `pat in s` for Python strings. -/
def strContains (s pat : String) : Bool :=
  charsContain s.toList pat.toList

/-- `s.startswith(pat)` for Python strings. -/
def strStartsWith (s pat : String) : Bool :=
  charsStartWith s.toList pat.toList

/-- `s.lower()` for the ASCII description strings the validator reads. -/
def strToLower (s : String) : String :=
  ⟨s.toList.map Char.toLower⟩

/-- `v.get(key, default)` where `v` is expected to be a dict; a non-dict
receiver yields the default (the claims never exercise a non-dict here). -/
def dictGetD (v : PyVal) (k : String) (d : PyVal) : PyVal :=
  match v with
  | .vDict l => (argsGet l k).getD d
  | _ => d

/-- `len(v)` for the container values the workflow measures. -/
def pyLen : PyVal → Nat
  | .vList l => l.length
  | .vDict l => l.length
  | .vStr s => s.length
  | _ => 0

/-- The elements of a value expected to be a list (`list.extend` source). -/
def asList : PyVal → List PyVal
  | .vList l => l
  | _ => []

/-! ## Tool catalog: `TOOL_DESCRIPTIONS` of
`src/activities/tool_registry_activities.py` (the `args` sub-dicts, which
are all the validator reads). -/

/-- `TOOL_DESCRIPTIONS[name]["args"]` of `tool_registry_activities.py`;
`none` models `name not in TOOL_DESCRIPTIONS`. -/
def toolArgsAct : String → Option (List (String × String))
  | "arxiv_search_papers" => some
      [("query", "Search query string"),
       ("max_results", "Optional: Maximum papers to return (default: 10)"),
       ("category", "Optional: arXiv category filter (e.g., \x27cs.AI\x27, \x27cs.LG\x27)"),
       ("date_from", "Optional: Start date filter (YYYY-MM-DD)"),
       ("date_to", "Optional: End date filter (YYYY-MM-DD)"),
       ("sort_by", "Optional: Sort criteria (\x27relevance\x27, \x27submitted\x27, \x27updated\x27)")]
  | "arxiv_download_paper" => some
      [("paper_id", "arXiv paper ID (e.g., \x271706.03762\x27)"),
       ("force_download", "Optional: Force re-download if already exists (default: false)")]
  | "arxiv_list_papers" => some
      [("category_filter", "Optional: Category to filter by"),
       ("date_from", "Optional: Start date filter for download date"),
       ("limit", "Optional: Maximum papers to return (default: 100)")]
  | "arxiv_read_paper" => some
      [("paper_id", "arXiv paper ID"),
       ("include_metadata", "Optional: Include full metadata (default: true)"),
       ("extract_sections", "Optional: Extract paper sections (default: false)")]
  | "arxiv_get_metadata" => some
      [("paper_id", "arXiv paper ID"),
       ("include_citations", "Optional: Include citation analysis (default: false)"),
       ("force_refresh", "Optional: Force refresh from arXiv API (default: false)")]
  | "arxiv_deep_analysis" => some
      [("paper_id", "arXiv paper ID")]
  | "extract_citations" => some
      [("paper_text", "Optional: Full text of the paper (provide either this or paper_url)"),
       ("paper_url", "Optional: URL to paper PDF (provide either this or paper_text)"),
       ("format", "Optional: Citation format to expect (default: mixed)")]
  | "analyze_citation_network" => some
      [("paper_ids", "List of paper IDs to analyze (required)"),
       ("depth", "Optional: Citation depth to explore (default: 2)")]
  | "process_pdf" => some
      [("pdf_url", "URL to PDF file (required)"),
       ("sections", "Optional: List of sections to extract. If not provided, extracts all content")]
  | "extract_sections" => some
      [("paper_text", "Full paper text (required)"),
       ("sections", "Optional: List of section names (e.g., [\x27abstract\x27, \x27introduction\x27, \x27conclusion\x27]). If not provided, extracts all major sections")]
  | "find_similar_papers" => some
      [("reference_paper", "Paper text or abstract for similarity comparison (required)"),
       ("search_corpus", "Optional: Specific corpus to search in. If not provided, uses default academic corpus")]
  | "calculate_similarity" => some
      [("paper1_text", "Text content of first paper (required)"),
       ("paper2_text", "Text content of second paper (required)")]
  | _ => none

/-- The `is_optional` test of `tool_registry_activities.validate_tool_usage`:
`"Optional:" in arg_desc or "optional" in arg_desc.lower() or
arg_desc.startswith("Optional")`. -/
def isOptionalAct (desc : String) : Bool :=
  strContains desc "Optional:" || strContains (strToLower desc) "optional" ||
    strStartsWith desc "Optional"

/-- A validation result (`valid` plus the `reason` field when present);
the other diagnostic fields of the returned dict carry no information the
claims mention. -/
structure VResult where
  valid : Bool
  reason : Option String := none
deriving Repr, DecidableEq

/-- `validate_tool_usage` of
`src/activities/tool_registry_activities.py`, translated clause by
clause. -/
def validate_tool_usage_act (tool_name : String) (tool_args : Args) : VResult :=
  match toolArgsAct tool_name with
  | none =>
      { valid := false,
        reason := some ("Tool \x27" ++ tool_name ++ "\x27 not found in registry") }
  | some required_args =>
      let missing_args :=
        (required_args.filter
          (fun pr => !(isOptionalAct pr.2) && !(argsHas tool_args pr.1))).map Prod.fst
      if tool_name == "extract_citations" then
        if !(truthyGet tool_args "paper_text") && !(truthyGet tool_args "paper_url") then
          { valid := false,
            reason := some "extract_citations requires either \x27paper_text\x27 or \x27paper_url\x27" }
        else { valid := true }
      else if tool_name == "arxiv_search_papers" then
        if !(truthyGet tool_args "query") then
          { valid := false,
            reason := some (tool_name ++ " requires \x27query\x27 parameter") }
        else { valid := true }
      else if tool_name == "arxiv_download_paper" || tool_name == "arxiv_read_paper" ||
              tool_name == "arxiv_get_metadata" || tool_name == "arxiv_deep_analysis" then
        if !(truthyGet tool_args "paper_id") then
          { valid := false,
            reason := some (tool_name ++ " requires \x27paper_id\x27 parameter") }
        else { valid := true }
      else if !missing_args.isEmpty then
        { valid := false,
          reason := some ("Missing required arguments: " ++ String.intercalate ", " missing_args) }
      else { valid := true }

/-! ## The second validator: `src/tools/registry.py`. -/

/-- The keys of `TOOL_REGISTRY` in `src/tools/registry.py`. -/
def toolRegistryKeys : List String :=
  ["arxiv_search_papers", "arxiv_download_paper", "arxiv_list_papers",
   "arxiv_read_paper", "arxiv_get_metadata", "arxiv_deep_analysis",
   "extract_citations", "analyze_citation_network", "process_pdf",
   "extract_sections", "find_similar_papers", "calculate_similarity"]

/-- `TOOL_DESCRIPTIONS[name]["args"]` of `src/tools/registry.py` (its
description strings differ from the activities module's). -/
def toolArgsReg : String → Option (List (String × String))
  | "arxiv_search_papers" => some
      [("query", "Search query string"),
       ("max_results", "Optional: Maximum papers to return (default: 10)"),
       ("category", "Optional: arXiv category filter (e.g., \x27cs.AI\x27, \x27cs.LG\x27)"),
       ("date_from", "Optional: Start date filter (YYYY-MM-DD)"),
       ("date_to", "Optional: End date filter (YYYY-MM-DD)"),
       ("sort_by", "Optional: Sort criteria (\x27relevance\x27, \x27submitted\x27, \x27updated\x27)")]
  | "arxiv_download_paper" => some
      [("paper_id", "arXiv paper ID (e.g., \x271706.03762\x27)"),
       ("force_download", "Optional: Force re-download if already exists (default: false)")]
  | "arxiv_list_papers" => some
      [("category_filter", "Optional: Category to filter by"),
       ("date_from", "Optional: Start date filter for download date"),
       ("limit", "Optional: Maximum papers to return (default: 100)")]
  | "arxiv_read_paper" => some
      [("paper_id", "arXiv paper ID"),
       ("include_metadata", "Optional: Include full metadata (default: true)"),
       ("extract_sections", "Optional: Extract paper sections (default: false)")]
  | "arxiv_get_metadata" => some
      [("paper_id", "arXiv paper ID"),
       ("include_citations", "Optional: Include citation analysis (default: false)"),
       ("force_refresh", "Optional: Force refresh from arXiv API (default: false)")]
  | "arxiv_deep_analysis" => some
      [("paper_id", "arXiv paper ID")]
  | "extract_citations" => some
      [("paper_text", "Full text of the paper"),
       ("paper_url", "Alternative: URL to paper PDF")]
  | "analyze_citation_network" => some
      [("paper_ids", "List of paper IDs to analyze"),
       ("depth", "Citation depth to explore (default: 2)")]
  | "process_pdf" => some
      [("pdf_url", "URL to PDF file"),
       ("sections", "Optional list of sections to extract")]
  | "extract_sections" => some
      [("paper_text", "Full paper text"),
       ("sections", "List of section names (e.g., [\x27abstract\x27, \x27introduction\x27, \x27conclusion\x27])")]
  | "find_similar_papers" => some
      [("reference_paper", "Paper text or abstract for similarity comparison"),
       ("search_corpus", "Optional: specific corpus to search in")]
  | "calculate_similarity" => some
      [("paper1_text", "Text content of first paper"),
       ("paper2_text", "Text content of second paper")]
  | _ => none

/-- `validate_tool_usage` of `src/tools/registry.py`: checks
`TOOL_REGISTRY` membership, then the description table, then only
`"Optional:" in arg_desc and arg_name not in tool_args` — no special
cases and no truthiness. -/
def validate_tool_usage_reg (tool_name : String) (tool_args : Args) : VResult :=
  if !(toolRegistryKeys.contains tool_name) then
    { valid := false,
      reason := some ("Tool \x27" ++ tool_name ++ "\x27 not found in registry") }
  else
    match toolArgsReg tool_name with
    | none =>
        { valid := false,
          reason := some ("Tool \x27" ++ tool_name ++ "\x27 missing description metadata") }
    | some required_args =>
        let missing_args :=
          (required_args.filter
            (fun pr => !(strContains pr.2 "Optional:") && !(argsHas tool_args pr.1))).map Prod.fst
        if !missing_args.isEmpty then
          { valid := false,
            reason := some ("Missing required arguments: " ++ String.intercalate ", " missing_args) }
        else { valid := true }

/-! ## Tool dispatcher: `src/activities/dynamic_tool_activity.py`. -/

/-- The tool names `_get_tool_handler` resolves (every other name yields
`None`, which the activity turns into a caught `ValueError`). -/
def knownHandlerTools : List String :=
  ["arxiv_search_papers", "arxiv_download_paper", "arxiv_list_papers",
   "arxiv_read_paper", "arxiv_get_metadata", "arxiv_deep_analysis",
   "extract_citations", "analyze_citation_network", "process_pdf",
   "extract_sections", "find_similar_papers", "calculate_similarity"]

/-- A raised Python exception: `str(e)` and `type(e).__name__`. -/
structure PyExc where
  message : String
  className : String
deriving Repr, DecidableEq

/-- The behavior of the external tool implementations: each handler either
returns a value or raises.  The concrete handlers do network and file IO
and are collaborators outside this component. -/
abbrev HandlerBehavior := String → Args → Except PyExc PyVal

/-- `dynamic_tool_activity`: resolves the handler, invokes it, and wraps
the outcome in the uniform envelope dict.  The Python `try` block catches
every exception (including the `ValueError` it raises itself for an
unknown tool), so the embedded activity is a total function into the
envelope — exception propagation is impossible by construction.  The
`metadata` entry (runtime scheduling info from `activity.info()`) is
abstracted as null. -/
def dynamic_tool_activity (handlers : HandlerBehavior) (tool_name : String)
    (tool_args : Args) : Args :=
  if tool_name ∈ knownHandlerTools then
    match handlers tool_name tool_args with
    | .ok r =>
        [("success", .vBool true), ("tool_name", .vStr tool_name),
         ("result", r), ("metadata", .vNull)]
    | .error e =>
        [("success", .vBool false), ("tool_name", .vStr tool_name),
         ("error", .vStr e.message), ("error_type", .vStr e.className),
         ("metadata", .vNull)]
  else
    [("success", .vBool false), ("tool_name", .vStr tool_name),
     ("error", .vStr ("Tool \x27" ++ tool_name ++ "\x27 not found in registry")),
     ("error_type", .vStr "ValueError"), ("metadata", .vNull)]

example : (validate_tool_usage_act "extract_citations" []).valid = false := by decide

example : (validate_tool_usage_act "process_pdf" [("pdf_url", .vStr "")]).valid = true := by
  decide

example : (validate_tool_usage_act "arxiv_search_papers" [("query", .vStr "")]).valid = false := by
  decide

example : (validate_tool_usage_reg "arxiv_search_papers" [("query", .vStr "")]).valid = true := by
  decide

example : (validate_tool_usage_act "process_pdf" []).valid = false := by decide

/-! ## Agent loop: `src/workflows/research_workflow.py`. -/

/-- The values the workflow assigns to `research_context["status"]`.  The
Python code uses strings; `statusText` gives the exact correspondence. -/
inductive Status where
  | starting
  | planning_complete
  | iteration : Nat → Status
  | summarizing
  | completed
  | failed
deriving Repr, DecidableEq

/-- The Python string for each status (`starting` is the string
written at context creation). -/
def statusText : Status → String
  | .starting => "initializing"
  | .planning_complete => "planning_complete"
  | .iteration i => "iteration_" ++ toString i
  | .summarizing => "summarizing"
  | .completed => "completed"
  | .failed => "failed"

/-- One entry of `research_context["tool_results"]`.  `workflow.now()` is
abstracted as the iteration index at which the merge happened. -/
structure ToolResultEntry where
  tool : String
  result : Args
  timestamp : Nat

/-- `self.research_context`.  Dict keys that the Python code creates
lazily (the list accumulators) are modelled as lists that start empty,
and set-once scalar keys as `Option` fields starting `none`: an absent
key and the empty/none value are observationally identical for every
property stated here. -/
structure ResearchContext where
  query : String
  user_id : String
  document_id : Option String
  iteration : Nat
  status : Status
  plan : Option PyVal := none
  papers_count : Option Nat := none
  papers_downloaded : Option Nat := none
  downloaded_papers : List PyVal := []
  read_papers : List PyVal := []
  extracted_content : List (PyVal × Nat) := []
  citations : List PyVal := []
  citation_network : Option PyVal := none
  analysis_count : Option Nat := none
  similar_papers : List PyVal := []
  similarity_scores : List PyVal := []
  tool_results : List ToolResultEntry := []
  error : Option String := none
  summary : Option PyVal := none

/-- The mutable state of a `ResearchWorkflow` instance:
`self.research_context`, `self.discovered_papers`,
`self.analysis_results` (`self.max_iterations` is the loop bound passed
to the run function; `__init__` sets it to `defaultMaxIterations`). -/
structure WorkflowState where
  research_context : ResearchContext
  discovered_papers : List PyVal
  analysis_results : List PyVal

/-- `self.max_iterations = 10` from `ResearchWorkflow.__init__`. -/
def defaultMaxIterations : Nat := 10

/-- `ResearchWorkflow._update_context_with_results(tool_result,
tool_name)`, translated branch by branch; `now` abstracts
`workflow.now()`. -/
def update_context_with_results (st : WorkflowState) (tool_result : Args)
    (tool_name : String) (now : Nat) : WorkflowState :=
  let st1 :=
    if (tool_name == "arxiv_search_papers" || tool_name == "arxiv_search") &&
        argsHas tool_result "papers" then
      let papers := asList ((argsGet tool_result "papers").getD .vNull)
      let discovered := st.discovered_papers ++ papers
      let ctx1 := { st.research_context with papers_count := some discovered.length }
      let ctx2 :=
        if tool_name == "arxiv_search_papers" then
          { ctx1 with papers_downloaded :=
              (some (papers.countP (fun p => truthy (dictGetD p "is_downloaded" (.vBool false))))) }
        else ctx1
      { st with discovered_papers := discovered, research_context := ctx2 }
    else if tool_name == "arxiv_download_paper" && truthyGet tool_result "success" then
      if argsHas tool_result "paper_id" then
        { st with research_context :=
            { st.research_context with downloaded_papers :=
                (st.research_context.downloaded_papers ++
                  [(argsGet tool_result "paper_id").getD .vNull]) } }
      else st
    else if tool_name == "arxiv_read_paper" && truthyGet tool_result "success" then
      let ctx1 :=
        if argsHas tool_result "paper_id" then
          { st.research_context with read_papers :=
              (st.research_context.read_papers ++
                [(argsGet tool_result "paper_id").getD .vNull]) }
        else st.research_context
      let ctx2 :=
        if argsHas tool_result "content" && argsHas tool_result "paper_id" then
          { ctx1 with extracted_content :=
              (ctx1.extracted_content ++
                [((argsGet tool_result "paper_id").getD .vNull,
                  pyLen (dictGetD ((argsGet tool_result "content").getD .vNull)
                    "sections" (.vDict [])))]) }
        else ctx1
      { st with research_context := ctx2 }
    else if tool_name == "extract_citations" || tool_name == "analyze_citation_network" then
      let ctx1 :=
        if argsHas tool_result "citations" then
          { st.research_context with citations :=
              (st.research_context.citations ++
                asList ((argsGet tool_result "citations").getD .vNull)) }
        else st.research_context
      let ctx2 :=
        if argsHas tool_result "network" then
          { ctx1 with citation_network := some ((argsGet tool_result "network").getD .vNull) }
        else ctx1
      { st with research_context := ctx2 }
    else if (tool_name == "process_pdf" || tool_name == "extract_sections") &&
        argsHas tool_result "content" then
      let results := st.analysis_results ++ [(argsGet tool_result "content").getD .vNull]
      { st with analysis_results := results,
                research_context :=
                  { st.research_context with analysis_count := some results.length } }
    else if tool_name == "find_similar_papers" || tool_name == "calculate_similarity" then
      let ctx1 :=
        if argsHas tool_result "similar_papers" then
          { st.research_context with similar_papers :=
              (st.research_context.similar_papers ++
                asList ((argsGet tool_result "similar_papers").getD .vNull)) }
        else st.research_context
      let ctx2 :=
        if argsHas tool_result "similarity" then
          { ctx1 with similarity_scores :=
              (ctx1.similarity_scores ++ [(argsGet tool_result "similarity").getD .vNull]) }
        else ctx1
      { st with research_context := ctx2 }
    else st
  { st1 with research_context :=
      { st1.research_context with tool_results :=
          (st1.research_context.tool_results ++ [⟨tool_name, tool_result, now⟩]) } }

/-- The dict `llm_analyze` returns in next-action mode, restricted to the
three keys the loop reads: `action` (compared with "complete"),
`tool_name` and `tool_args` (checked for presence, then passed on). -/
structure NextAction where
  action : Option String := none
  tool_name : Option String := none
  tool_args : Option Args := none

/-- The behavior of every activity the workflow executes, one field per
`workflow.execute_activity` call site.  An `Except.error` models the
activity raising (after its retries are exhausted), which the workflow's
`try` block turns into the failed terminal state. -/
structure RunBehavior where
  plan : String → Except PyExc PyVal
  get_available_tools : Nat → Except PyExc (List String)
  analyze : ResearchContext → List String → Except PyExc NextAction
  validate : String → Args → Except PyExc VResult
  dispatch : String → Args → Except PyExc Args
  summarize : ResearchContext → Except PyExc PyVal

/-- A behavior in which no activity ever raises. -/
structure TotalBehavior where
  plan : String → PyVal
  get_available_tools : Nat → List String
  analyze : ResearchContext → List String → NextAction
  validate : String → Args → VResult
  dispatch : String → Args → Args
  summarize : ResearchContext → PyVal

/-- Lift a never-raising behavior to a `RunBehavior`. -/
def TotalBehavior.toRun (f : TotalBehavior) : RunBehavior where
  plan := fun q => .ok (f.plan q)
  get_available_tools := fun i => .ok (f.get_available_tools i)
  analyze := fun c t => .ok (f.analyze c t)
  validate := fun n a => .ok (f.validate n a)
  dispatch := fun n a => .ok (f.dispatch n a)
  summarize := fun c => .ok (f.summarize c)

/-- Observable events of a run, recorded in program order: every
assignment to `iteration` and `status`, and every analyze / validate /
dispatch / merge step. -/
inductive Event where
  | statusSet : Status → Event
  | iterSet : Nat → Event
  | analyzeCall : Event
  | validateCall : Event
  | dispatchCall : String → Event
  | mergeCall : Event
deriving Repr, DecidableEq

/-- Exit of one loop body: proceed to the next iteration, `break` on
`action == "complete"`, or an exception escaping to the `except` clause. -/
inductive BodyExit where
  | cont : WorkflowState → BodyExit
  | broke : WorkflowState → BodyExit
  | failure : WorkflowState → PyExc → BodyExit

/-- The state after the two leading assignments of a loop body:
`research_context["iteration"] = i; research_context["status"] =
f"iteration_{i}"`. -/
def stepIn (st : WorkflowState) (i : Nat) : WorkflowState :=
  { st with research_context :=
      { st.research_context with iteration := i, status := .iteration i } }

/-- One body of the `for iteration in range(self.max_iterations)` loop of
`ResearchWorkflow.run`. -/
def iterBody (B : RunBehavior) (i : Nat) (st : WorkflowState) : List Event × BodyExit :=
  let st0 := stepIn st i
  let ev0 : List Event := [.iterSet i, .statusSet (.iteration i)]
  match B.get_available_tools i with
  | .error e => (ev0, .failure st0 e)
  | .ok tools =>
    let ev1 := ev0 ++ [.analyzeCall]
    match B.analyze st0.research_context tools with
    | .error e => (ev1, .failure st0 e)
    | .ok na =>
      if na.action = some "complete" then (ev1, .broke st0)
      else
        match na.tool_name, na.tool_args with
        | some tn, some ta =>
          let ev2 := ev1 ++ [.validateCall]
          match B.validate tn ta with
          | .error e => (ev2, .failure st0 e)
          | .ok v =>
            if v.valid then
              let ev3 := ev2 ++ [.dispatchCall tn]
              match B.dispatch tn ta with
              | .error e => (ev3, .failure st0 e)
              | .ok env =>
                (ev3 ++ [.mergeCall], .cont (update_context_with_results st0 env tn i))
            else (ev2, .cont st0)
        | _, _ => (ev1, .cont st0)

/-- Exit of the whole loop: the range was exhausted or the body broke
(`finished`), or an exception escaped a body (`failure`). -/
inductive LoopExit where
  | finished : WorkflowState → LoopExit
  | failure : WorkflowState → PyExc → LoopExit

/-- The iteration loop: `loopIters B i r st` runs bodies for indices
`i, i+1, ...` with `r` range elements remaining. -/
def loopIters (B : RunBehavior) : Nat → Nat → WorkflowState → List Event × LoopExit
  | _, 0, st => ([], .finished st)
  | i, r + 1, st =>
    match iterBody B i st with
    | (evs, .broke st1) => (evs, .finished st1)
    | (evs, .failure st1 e) => (evs, .failure st1 e)
    | (evs, .cont st1) =>
      let rest := loopIters B (i + 1) r st1
      (evs ++ rest.1, rest.2)

/-- The dict `ResearchWorkflow.run` returns. -/
structure RunResult where
  success : Bool
  error : Option String := none
  research_context : ResearchContext
  papers_discovered : Nat := 0
  analysis_count : Nat := 0
  final_summary : Option PyVal := none

/-- The freshly initialized context of `ResearchWorkflow.run` (its first
block: query, user_id, document_id, iteration 0, status initializing). -/
def initContext (research_query user_id : String) (document_id : Option String) :
    ResearchContext :=
  { query := research_query, user_id := user_id, document_id := document_id,
    iteration := 0, status := .starting }

/-- The workflow state right after the planning step attached `plan` and
set status `planning_complete`. -/
def plannedState (research_query user_id : String) (document_id : Option String)
    (planV : PyVal) : WorkflowState :=
  { research_context :=
      { initContext research_query user_id document_id with
          plan := some planV, status := .planning_complete },
    discovered_papers := [], analysis_results := [] }

/-- The tail of `ResearchWorkflow.run` after the iteration loop: either
the `except` clause (exception escaped a loop body), or the summarizing
step followed by completion or by the `except` clause (summarize call
raised). -/
def finishRun (B : RunBehavior) (ex : LoopExit) : RunResult × List Event :=
  match ex with
  | .failure st2 e =>
      ({ success := false, error := some e.message,
         research_context :=
           { st2.research_context with status := .failed, error := some e.message } },
       [.statusSet .failed])
  | .finished st2 =>
      let ctx2 := { st2.research_context with status := .summarizing }
      match B.summarize ctx2 with
      | .error e =>
          ({ success := false, error := some e.message,
             research_context := { ctx2 with status := .failed, error := some e.message } },
           [.statusSet .summarizing, .statusSet .failed])
      | .ok summ =>
          ({ success := true,
             research_context := { ctx2 with status := .completed, summary := some summ },
             papers_discovered := st2.discovered_papers.length,
             analysis_count := st2.analysis_results.length,
             final_summary := some summ },
           [.statusSet .summarizing, .statusSet .completed])

/-- `ResearchWorkflow.run(research_query, user_id, document_id)` with
loop bound `max_iterations`, returning the run's result together with
the recorded event trace. -/
def runWorkflow (B : RunBehavior) (research_query user_id : String)
    (document_id : Option String) (max_iterations : Nat) : RunResult × List Event :=
  match B.plan research_query with
  | .error e =>
    ({ success := false, error := some e.message,
       research_context :=
         { initContext research_query user_id document_id with
             status := .failed, error := some e.message } },
     [.statusSet .starting, .statusSet .failed])
  | .ok planV =>
    let lr := loopIters B 0 max_iterations
      (plannedState research_query user_id document_id planV)
    let fin := finishRun B lr.2
    (fin.1, [.statusSet .starting, .statusSet .planning_complete] ++ lr.1 ++ fin.2)

/-- Number of next-action `llm_analyze` calls in a trace. -/
def countAnalyze (evs : List Event) : Nat :=
  evs.countP (fun e => match e with | .analyzeCall => true | _ => false)

/-- Number of `dynamic_tool_activity` dispatches in a trace. -/
def countDispatch (evs : List Event) : Nat :=
  evs.countP (fun e => match e with | .dispatchCall _ => true | _ => false)

/-- Number of `_update_context_with_results` calls in a trace. -/
def countMerge (evs : List Event) : Nat :=
  evs.countP (fun e => match e with | .mergeCall => true | _ => false)

/-- The values assigned to `research_context["iteration"]`, in order. -/
def iterVals (evs : List Event) : List Nat :=
  evs.filterMap (fun e => match e with | .iterSet n => some n | _ => none)

/-- The values assigned to `research_context["status"]`, in order. -/
def statusTrace (evs : List Event) : List Status :=
  evs.filterMap (fun e => match e with | .statusSet s => some s | _ => none)

/-- The key list served by the `get_available_tools` activity
(`list(TOOL_DESCRIPTIONS.keys())` of `tool_registry_activities.py`). -/
def get_available_tools_act : List String :=
  ["arxiv_search_papers", "arxiv_download_paper", "arxiv_list_papers",
   "arxiv_read_paper", "arxiv_get_metadata", "arxiv_deep_analysis",
   "extract_citations", "analyze_citation_network", "process_pdf",
   "extract_sections", "find_similar_papers", "calculate_similarity"]

/-- A workflow behavior wired the way the deployed worker wires it: the
real validator activity and the real dispatcher activity, with the
planner (`llm_plan_research` / `llm_analyze`) and the tool handlers as
the remaining external parameters. -/
def mkBehavior (planV : PyVal) (analyze : ResearchContext → List String → NextAction)
    (handlers : HandlerBehavior) (summ : PyVal) : TotalBehavior where
  plan := fun _ => planV
  get_available_tools := fun _ => get_available_tools_act
  analyze := analyze
  validate := validate_tool_usage_act
  dispatch := dynamic_tool_activity handlers
  summarize := fun _ => summ

/-- One paper entry, as the arXiv search handler returns it. -/
def searchPaperVal : PyVal :=
  .vDict [("id", .vStr "2401.00001"), ("title", .vStr "T"),
          ("is_downloaded", .vBool false)]

/-- Handler behavior for the scenario of testable-property scenario 2:
`arxiv_search_papers` succeeds with a one-paper result dict each call. -/
def searchHandlers : HandlerBehavior := fun n _ =>
  if n == "arxiv_search_papers" then
    .ok (.vDict [("success", .vBool true), ("query", .vStr "X"),
                 ("papers", .vList [searchPaperVal]), ("count", .vInt 1)])
  else .error ⟨"unsupported", "RuntimeError"⟩

/-- The planner of scenario 2: propose `arxiv_search_papers` with
`{query: "X"}` every iteration. -/
def searchEachIteration : TotalBehavior :=
  mkBehavior (.vDict [])
    (fun _ _ =>
      { action := some "use_tool", tool_name := some "arxiv_search_papers",
        tool_args := some [("query", .vStr "X")] })
    searchHandlers (.vStr "summary")

example : countDispatch (runWorkflow searchEachIteration.toRun "X" "user" none 10).2 = 10 := by
  decide

example :
    (runWorkflow searchEachIteration.toRun "X" "user" none
      10).1.research_context.tool_results.length = 10 := by
  decide

example : (runWorkflow searchEachIteration.toRun "X" "user" none 10).1.papers_discovered = 0 := by
  decide

/-! ## Validator and dispatcher properties (claims C2, C3, C4, C10). -/

/-- The tools of `tool_registry_activities.py` whose validation uses only
the generic required/optional check (no special-case clause names them). -/
def plainToolsAct : List String :=
  ["arxiv_list_papers", "analyze_citation_network", "process_pdf",
   "extract_sections", "find_similar_papers", "calculate_similarity"]

/-- For a tool that no special-case clause names, the activities validator
is invalid exactly when some declared argument is non-optional and its key
is absent from `tool_args` (truthiness of present values is never
consulted). -/
lemma validate_act_plain (t : String)
    (h1 : (toolArgsAct t).isSome = true)
    (h2 : (t == "extract_citations") = false)
    (h3 : (t == "arxiv_search_papers") = false)
    (h4 : (t == "arxiv_download_paper") = false)
    (h5 : (t == "arxiv_read_paper") = false)
    (h6 : (t == "arxiv_get_metadata") = false)
    (h7 : (t == "arxiv_deep_analysis") = false)
    (args : Args) :
    (validate_tool_usage_act t args).valid = false ↔
      ∃ pr ∈ (toolArgsAct t).getD [], isOptionalAct pr.2 = false ∧
        argsHas args pr.1 = false := by
  obtain ⟨l, hl⟩ := Option.isSome_iff_exists.mp h1
  have key :
      ((l.filter (fun pr => !(isOptionalAct pr.2) && !(argsHas args pr.1))).map
          Prod.fst).isEmpty = false ↔
        ∃ pr ∈ l, isOptionalAct pr.2 = false ∧ argsHas args pr.1 = false := by
    simp [List.isEmpty_iff, List.filter_eq_nil_iff]
  rw [hl, Option.getD_some, ← key]
  unfold validate_tool_usage_act
  rw [hl]
  simp only [h2, h3, h4, h5, h6, h7, Bool.false_eq_true, if_false, Bool.or_self]
  cases h : ((l.filter (fun pr => !(isOptionalAct pr.2) && !(argsHas args pr.1))).map
      Prod.fst).isEmpty <;>
    simp [h]

/-- C4 (counterexample): the claim "valid:false iff at least one required
argument key is absent or present-but-falsy" is false on the code: for
`calculate_similarity` both arguments are required (their descriptions
are not optional in either module), both keys are present with the falsy
value `""`, yet both validators return `valid:true`; the same holds for
`process_pdf` with a falsy `pdf_url` in the activities validator. -/
theorem c4_falsy_required_passes :
    isOptionalAct "Text content of first paper (required)" = false
    ∧ strContains "Text content of first paper" "Optional:" = false
    ∧ truthyGet [("paper1_text", PyVal.vStr ""), ("paper2_text", PyVal.vStr "")]
        "paper1_text" = false
    ∧ (validate_tool_usage_act "calculate_similarity"
        [("paper1_text", PyVal.vStr ""), ("paper2_text", PyVal.vStr "")]).valid = true
    ∧ (validate_tool_usage_reg "calculate_similarity"
        [("paper1_text", PyVal.vStr ""), ("paper2_text", PyVal.vStr "")]).valid = true
    ∧ isOptionalAct "URL to PDF file (required)" = false
    ∧ truthyGet [("pdf_url", PyVal.vStr "")] "pdf_url" = false
    ∧ (validate_tool_usage_act "process_pdf" [("pdf_url", PyVal.vStr "")]).valid = true := by
  decide

/-- C4 (amended): for every tool declared with only plain
required/optional arguments, `validate_tool_usage` (activities module)
returns `valid:false` iff at least one required argument key is absent
from the args mapping; a key that is present with a falsy value counts as
present. -/
theorem c4_plain_validation_membership :
    ∀ t ∈ plainToolsAct, ∀ args : Args,
      (validate_tool_usage_act t args).valid = false ↔
        ∃ pr ∈ (toolArgsAct t).getD [], isOptionalAct pr.2 = false ∧
          argsHas args pr.1 = false := by
  intro t ht args
  fin_cases ht <;>
    exact validate_act_plain _ (by decide) (by decide) (by decide) (by decide) (by decide)
      (by decide) (by decide) args

/-- Witness for `c4_plain_validation_membership` at `process_pdf` with
empty args: `pdf_url` is required and absent, so validation fails. -/
theorem c4_plain_validation_membership_witness :
    ("process_pdf" ∈ plainToolsAct)
    ∧ ((validate_tool_usage_act "process_pdf" ([] : Args)).valid = false ↔
        ∃ pr ∈ (toolArgsAct "process_pdf").getD [], isOptionalAct pr.2 = false ∧
          argsHas ([] : Args) pr.1 = false) :=
  ⟨by decide, c4_plain_validation_membership "process_pdf" (by decide) []⟩

/-- C3: for the special-cased tools the activities validator is valid iff
the (possibly one-element) disjunction of required fields has a present
and truthy member; and on `extract_citations` with empty args the reason
string names both `paper_text` and `paper_url`. -/
theorem c3_special_case_disjunction :
    (∀ args : Args, (validate_tool_usage_act "extract_citations" args).valid = true ↔
      (truthyGet args "paper_text" = true ∨ truthyGet args "paper_url" = true))
    ∧ (∀ args : Args, (validate_tool_usage_act "arxiv_search_papers" args).valid = true ↔
        truthyGet args "query" = true)
    ∧ (∀ args : Args, (validate_tool_usage_act "arxiv_download_paper" args).valid = true ↔
        truthyGet args "paper_id" = true)
    ∧ (∀ args : Args, (validate_tool_usage_act "arxiv_read_paper" args).valid = true ↔
        truthyGet args "paper_id" = true)
    ∧ (∀ args : Args, (validate_tool_usage_act "arxiv_get_metadata" args).valid = true ↔
        truthyGet args "paper_id" = true)
    ∧ (∀ args : Args, (validate_tool_usage_act "arxiv_deep_analysis" args).valid = true ↔
        truthyGet args "paper_id" = true)
    ∧ ((validate_tool_usage_act "extract_citations" []).valid = false
       ∧ ∃ r, (validate_tool_usage_act "extract_citations" []).reason = some r
           ∧ strContains r "paper_text" = true ∧ strContains r "paper_url" = true) := by
  refine ⟨?_, ?_, ?_, ?_, ?_, ?_, ?_, ?_⟩
  · intro args
    cases h1 : truthyGet args "paper_text" <;> cases h2 : truthyGet args "paper_url" <;>
      simp [validate_tool_usage_act, toolArgsAct, h1, h2]
  · intro args
    cases h1 : truthyGet args "query" <;>
      simp [validate_tool_usage_act, toolArgsAct, h1]
  · intro args
    cases h1 : truthyGet args "paper_id" <;>
      simp [validate_tool_usage_act, toolArgsAct, h1]
  · intro args
    cases h1 : truthyGet args "paper_id" <;>
      simp [validate_tool_usage_act, toolArgsAct, h1]
  · intro args
    cases h1 : truthyGet args "paper_id" <;>
      simp [validate_tool_usage_act, toolArgsAct, h1]
  · intro args
    cases h1 : truthyGet args "paper_id" <;>
      simp [validate_tool_usage_act, toolArgsAct, h1]
  · exact by decide
  · exact ⟨"extract_citations requires either \x27paper_text\x27 or \x27paper_url\x27",
      by decide, by decide, by decide⟩

/-- C10: the two near-duplicate validators are not extensionally equal:
on `arxiv_search_papers` with the required argument `query` present but
falsy (empty string), the activities validator rejects while the
registry validator accepts. -/
theorem c10_validators_disagree :
    (validate_tool_usage_act "arxiv_search_papers" [("query", PyVal.vStr "")]).valid = false
    ∧ (validate_tool_usage_reg "arxiv_search_papers" [("query", PyVal.vStr "")]).valid = true
    ∧ ((validate_tool_usage_act "arxiv_search_papers" [("query", PyVal.vStr "")]).valid
        ≠ (validate_tool_usage_reg "arxiv_search_papers" [("query", PyVal.vStr "")]).valid)
    ∧ argsHas [("query", PyVal.vStr "")] "query" = true
    ∧ truthy (PyVal.vStr "") = false := by
  decide

/-- C2: the dispatcher never propagates an exception (the embedded
activity is a total function into the envelope dict): an unknown tool
yields the caught internal `ValueError` as a failure envelope whose error
message names the absence, a raising handler yields a failure envelope
carrying the exception's message and class name, and every envelope has a
`success` key. -/
theorem c2_dispatch_never_raises :
    ∀ (handlers : HandlerBehavior) (tool_name : String) (tool_args : Args),
      (tool_name ∉ knownHandlerTools →
        dynamic_tool_activity handlers tool_name tool_args =
          [("success", .vBool false), ("tool_name", .vStr tool_name),
           ("error", .vStr ("Tool \x27" ++ tool_name ++ "\x27 not found in registry")),
           ("error_type", .vStr "ValueError"), ("metadata", .vNull)])
      ∧ (∀ e, tool_name ∈ knownHandlerTools →
          handlers tool_name tool_args = .error e →
          dynamic_tool_activity handlers tool_name tool_args =
            [("success", .vBool false), ("tool_name", .vStr tool_name),
             ("error", .vStr e.message), ("error_type", .vStr e.className),
             ("metadata", .vNull)])
      ∧ argsHas (dynamic_tool_activity handlers tool_name tool_args) "success" = true := by
  intro handlers tool_name tool_args
  refine ⟨fun h => by simp [dynamic_tool_activity, h], fun e hk he => by
    simp [dynamic_tool_activity, hk, he], ?_⟩
  by_cases hk : tool_name ∈ knownHandlerTools
  · cases he : handlers tool_name tool_args <;>
      simp [dynamic_tool_activity, hk, he, argsHas]
  · simp [dynamic_tool_activity, hk, argsHas]

/-- A handler behavior that raises `RuntimeError("boom")` on every call. -/
def raisingHandlers : HandlerBehavior := fun _ _ => .error ⟨"boom", "RuntimeError"⟩

/-- Witness for `c2_dispatch_never_raises`: the unknown tool
`no_such_tool`, and a raising `process_pdf` handler. -/
theorem c2_dispatch_never_raises_witness :
    ("no_such_tool" ∉ knownHandlerTools
      ∧ dynamic_tool_activity raisingHandlers "no_such_tool" [] =
          [("success", .vBool false), ("tool_name", .vStr "no_such_tool"),
           ("error", .vStr ("Tool \x27" ++ "no_such_tool" ++ "\x27 not found in registry")),
           ("error_type", .vStr "ValueError"), ("metadata", .vNull)])
    ∧ (raisingHandlers "process_pdf" [] = .error ⟨"boom", "RuntimeError"⟩
      ∧ dynamic_tool_activity raisingHandlers "process_pdf" [] =
          [("success", .vBool false), ("tool_name", .vStr "process_pdf"),
           ("error", .vStr "boom"), ("error_type", .vStr "RuntimeError"),
           ("metadata", .vNull)]) :=
  ⟨⟨by decide, (c2_dispatch_never_raises raisingHandlers "no_such_tool" []).1 (by decide)⟩,
   ⟨rfl, (c2_dispatch_never_raises raisingHandlers "process_pdf" []).2.1
      ⟨"boom", "RuntimeError"⟩ (by decide) rfl⟩⟩

/-! ## Loop analysis machinery. -/

/-- The workflow state a body exit carries. -/
def BodyExit.state : BodyExit → WorkflowState
  | .cont st => st
  | .broke st => st
  | .failure st _ => st

/-- The workflow state a loop exit carries. -/
def LoopExit.state : LoopExit → WorkflowState
  | .finished st => st
  | .failure st _ => st

/-- The status assignments `iteration_i, iteration_{i+1}, ...` of `k`
consecutive loop bodies. -/
def iterStatuses : Nat → Nat → List Status
  | _, 0 => []
  | i, k + 1 => .iteration i :: iterStatuses (i + 1) k

/-- Merging never touches `iteration` or `status`. -/
lemma update_context_preserves (st : WorkflowState) (tool_result : Args)
    (tool_name : String) (now : Nat) :
    (update_context_with_results st tool_result tool_name now).research_context.iteration
        = st.research_context.iteration
    ∧ (update_context_with_results st tool_result tool_name now).research_context.status
        = st.research_context.status := by
  unfold update_context_with_results
  split_ifs <;> exact ⟨rfl, rfl⟩

/-- The eight possible outcomes of one loop body, with their exact event
lists: an activity failure at one of the four call sites, a `break` on
`action == "complete"`, a skip because the proposal lacks tool fields, a
skip because validation failed, or a dispatched-and-merged tool call. -/
lemma iterBody_shape (B : RunBehavior) (i : Nat) (st : WorkflowState) :
    (∃ e, iterBody B i st =
      ([.iterSet i, .statusSet (.iteration i)], .failure (stepIn st i) e))
    ∨ (∃ e, iterBody B i st =
      ([.iterSet i, .statusSet (.iteration i), .analyzeCall], .failure (stepIn st i) e))
    ∨ (iterBody B i st =
      ([.iterSet i, .statusSet (.iteration i), .analyzeCall], .broke (stepIn st i)))
    ∨ (iterBody B i st =
      ([.iterSet i, .statusSet (.iteration i), .analyzeCall], .cont (stepIn st i)))
    ∨ (∃ e, iterBody B i st =
      ([.iterSet i, .statusSet (.iteration i), .analyzeCall, .validateCall],
        .failure (stepIn st i) e))
    ∨ (iterBody B i st =
      ([.iterSet i, .statusSet (.iteration i), .analyzeCall, .validateCall],
        .cont (stepIn st i)))
    ∨ (∃ tn e, iterBody B i st =
      ([.iterSet i, .statusSet (.iteration i), .analyzeCall, .validateCall,
        .dispatchCall tn], .failure (stepIn st i) e))
    ∨ (∃ tn env, iterBody B i st =
      ([.iterSet i, .statusSet (.iteration i), .analyzeCall, .validateCall,
        .dispatchCall tn, .mergeCall],
        .cont (update_context_with_results (stepIn st i) env tn i))) := by
  cases hg : B.get_available_tools i with
  | error e =>
      exact Or.inl ⟨e, by unfold iterBody; simp only [hg]⟩
  | ok tools =>
      cases ha : B.analyze (stepIn st i).research_context tools with
      | error e =>
          exact Or.inr (Or.inl ⟨e, by unfold iterBody; simp [hg, ha]⟩)
      | ok na =>
          by_cases hc : na.action = some "complete"
          · exact Or.inr (Or.inr (Or.inl (by unfold iterBody; simp only [hg, ha]; simp [hc])))
          · cases htn : na.tool_name with
            | none =>
                refine Or.inr (Or.inr (Or.inr (Or.inl ?_)))
                unfold iterBody; simp only [hg, ha]; simp [hc, htn]
            | some tn =>
                cases hta : na.tool_args with
                | none =>
                    refine Or.inr (Or.inr (Or.inr (Or.inl ?_)))
                    unfold iterBody; simp only [hg, ha]; simp [hc, htn, hta]
                | some ta =>
                    cases hv : B.validate tn ta with
                    | error e =>
                        refine Or.inr (Or.inr (Or.inr (Or.inr (Or.inl ⟨e, ?_⟩))))
                        unfold iterBody; simp only [hg, ha]; simp [hc, htn, hta, hv]
                    | ok v =>
                        by_cases hval : v.valid = true
                        · cases hd : B.dispatch tn ta with
                          | error e =>
                              refine Or.inr (Or.inr (Or.inr (Or.inr (Or.inr (Or.inr
                                (Or.inl ⟨tn, e, ?_⟩))))))
                              unfold iterBody; simp only [hg, ha]
                              simp [hc, htn, hta, hv, hval, hd]
                          | ok env =>
                              refine Or.inr (Or.inr (Or.inr (Or.inr (Or.inr (Or.inr
                                (Or.inr ⟨tn, env, ?_⟩))))))
                              unfold iterBody; simp only [hg, ha]
                              simp [hc, htn, hta, hv, hval, hd]
                        · refine Or.inr (Or.inr (Or.inr (Or.inr (Or.inr (Or.inl ?_)))))
                          unfold iterBody; simp only [hg, ha]
                          simp [hc, htn, hta, hv, hval]

/-- Each loop body records exactly one `iteration` assignment and one
`status` assignment (to `iteration_i`), and at most one analyze, one
dispatch and one merge. -/
lemma iterBody_trace (B : RunBehavior) (i : Nat) (st : WorkflowState) :
    countAnalyze (iterBody B i st).1 ≤ 1
    ∧ countDispatch (iterBody B i st).1 ≤ 1
    ∧ countMerge (iterBody B i st).1 ≤ 1
    ∧ iterVals (iterBody B i st).1 = [i]
    ∧ statusTrace (iterBody B i st).1 = [.iteration i] := by
  rcases iterBody_shape B i st with ⟨e, h⟩ | ⟨e, h⟩ | h | h | ⟨e, h⟩ | h |
    ⟨tn, e, h⟩ | ⟨tn, env, h⟩ <;>
    rw [h] <;>
    simp [countAnalyze, countDispatch, countMerge, iterVals, statusTrace]

/-- Every exit of a loop body carries a state whose `iteration` is `i`
and whose `status` is `iteration_i`. -/
lemma iterBody_state (B : RunBehavior) (i : Nat) (st : WorkflowState) :
    (iterBody B i st).2.state.research_context.iteration = i
    ∧ (iterBody B i st).2.state.research_context.status = .iteration i := by
  rcases iterBody_shape B i st with ⟨e, h⟩ | ⟨e, h⟩ | h | h | ⟨e, h⟩ | h |
    ⟨tn, e, h⟩ | ⟨tn, env, h⟩ <;>
    rw [h] <;>
    simp [BodyExit.state, stepIn, (update_context_preserves _ _ _ _).1,
      (update_context_preserves _ _ _ _).2]

lemma countAnalyze_append (a b : List Event) :
    countAnalyze (a ++ b) = countAnalyze a + countAnalyze b := by
  simp [countAnalyze, List.countP_append]

lemma countDispatch_append (a b : List Event) :
    countDispatch (a ++ b) = countDispatch a + countDispatch b := by
  simp [countDispatch, List.countP_append]

lemma countMerge_append (a b : List Event) :
    countMerge (a ++ b) = countMerge a + countMerge b := by
  simp [countMerge, List.countP_append]

lemma iterVals_append (a b : List Event) :
    iterVals (a ++ b) = iterVals a ++ iterVals b := by
  simp [iterVals, List.filterMap_append]

lemma statusTrace_append (a b : List Event) :
    statusTrace (a ++ b) = statusTrace a ++ statusTrace b := by
  simp [statusTrace, List.filterMap_append]

lemma loopIters_succ (B : RunBehavior) (i n : Nat) (st : WorkflowState) :
    loopIters B i (n + 1) st =
      match iterBody B i st with
      | (evs, .broke st1) => (evs, .finished st1)
      | (evs, .failure st1 e) => (evs, .failure st1 e)
      | (evs, .cont st1) =>
        (evs ++ (loopIters B (i + 1) n st1).1, (loopIters B (i + 1) n st1).2) := rfl

/-- Per run of the loop, at most one analyze, one dispatch and one merge
per remaining range element. -/
lemma loop_counts (B : RunBehavior) : ∀ (r i : Nat) (st : WorkflowState),
    countAnalyze (loopIters B i r st).1 ≤ r
    ∧ countDispatch (loopIters B i r st).1 ≤ r
    ∧ countMerge (loopIters B i r st).1 ≤ r := by
  intro r
  induction r with
  | zero =>
      intro i st
      simp [loopIters, countAnalyze, countDispatch, countMerge]
  | succ n ih =>
      intro i st
      obtain ⟨h1, h2, h3, -, -⟩ := iterBody_trace B i st
      rcases hb : iterBody B i st with ⟨evs, bx⟩
      rw [hb] at h1 h2 h3
      dsimp only at h1 h2 h3
      rw [loopIters_succ, hb]
      cases bx with
      | broke st1 => dsimp only; exact ⟨by omega, by omega, by omega⟩
      | failure st1 e => dsimp only; exact ⟨by omega, by omega, by omega⟩
      | cont st1 =>
          obtain ⟨g1, g2, g3⟩ := ih (i + 1) st1
          refine ⟨?_, ?_, ?_⟩ <;> dsimp only
          · rw [countAnalyze_append]; omega
          · rw [countDispatch_append]; omega
          · rw [countMerge_append]; omega

/-- Every `iteration` value the loop assigns lies in `[i, i + r)`. -/
lemma loop_iterVals (B : RunBehavior) : ∀ (r i : Nat) (st : WorkflowState),
    ∀ j ∈ iterVals (loopIters B i r st).1, i ≤ j ∧ j < i + r := by
  intro r
  induction r with
  | zero =>
      intro i st j hj
      simp [loopIters, iterVals] at hj
  | succ n ih =>
      intro i st j hj
      obtain ⟨-, -, -, h4, -⟩ := iterBody_trace B i st
      rcases hb : iterBody B i st with ⟨evs, bx⟩
      rw [hb] at h4
      dsimp only at h4
      rw [loopIters_succ, hb] at hj
      cases bx with
      | broke st1 =>
          dsimp only at hj
          rw [h4] at hj
          simp at hj
          omega
      | failure st1 e =>
          dsimp only at hj
          rw [h4] at hj
          simp at hj
          omega
      | cont st1 =>
          dsimp only at hj
          rw [iterVals_append, h4] at hj
          rcases List.mem_append.mp hj with hj | hj
          · simp at hj; omega
          · have := ih (i + 1) st1 j hj
            omega

/-- The loop's status assignments are exactly
`iteration_i, ..., iteration_{i+k-1}` for some `k ≤ r`. -/
lemma loop_statusTrace (B : RunBehavior) : ∀ (r i : Nat) (st : WorkflowState),
    ∃ k ≤ r, statusTrace (loopIters B i r st).1 = iterStatuses i k := by
  intro r
  induction r with
  | zero =>
      intro i st
      exact ⟨0, Nat.le_refl 0, by simp [loopIters, statusTrace, iterStatuses]⟩
  | succ n ih =>
      intro i st
      obtain ⟨-, -, -, -, h5⟩ := iterBody_trace B i st
      rcases hb : iterBody B i st with ⟨evs, bx⟩
      rw [hb] at h5
      dsimp only at h5
      rw [loopIters_succ, hb]
      cases bx with
      | broke st1 =>
          exact ⟨1, by omega, by dsimp only; rw [h5]; rfl⟩
      | failure st1 e =>
          exact ⟨1, by omega, by dsimp only; rw [h5]; rfl⟩
      | cont st1 =>
          obtain ⟨k, hk, hst⟩ := ih (i + 1) st1
          refine ⟨k + 1, by omega, ?_⟩
          dsimp only
          rw [statusTrace_append, h5, hst]
          rfl

/-- The loop's exit state never carries an `iteration` above the bound,
provided the entry state and range respect it. -/
lemma loop_exit_iteration (B : RunBehavior) (m : Nat) : ∀ (r i : Nat) (st : WorkflowState),
    st.research_context.iteration ≤ m → i + r ≤ m →
    (loopIters B i r st).2.state.research_context.iteration ≤ m := by
  intro r
  induction r with
  | zero =>
      intro i st h0 _
      simpa [loopIters, LoopExit.state] using h0
  | succ n ih =>
      intro i st h0 hir
      obtain ⟨hiter, -⟩ := iterBody_state B i st
      rcases hb : iterBody B i st with ⟨evs, bx⟩
      rw [hb] at hiter
      dsimp only at hiter
      rw [loopIters_succ, hb]
      cases bx with
      | broke st1 =>
          simp [BodyExit.state] at hiter
          dsimp only
          simp [LoopExit.state]
          omega
      | failure st1 e =>
          simp [BodyExit.state] at hiter
          dsimp only
          simp [LoopExit.state]
          omega
      | cont st1 =>
          simp [BodyExit.state] at hiter
          exact ih (i + 1) st1 (by omega) (by omega)

/-- With a never-raising behavior whose planner never answers
"complete", every loop body continues, performing exactly one analyze. -/
lemma iterBody_total_cont (f : TotalBehavior)
    (h : ∀ c t, (f.analyze c t).action ≠ some "complete") (i : Nat) (st : WorkflowState) :
    ∃ evs st1, iterBody f.toRun i st = (evs, .cont st1) ∧ countAnalyze evs = 1 := by
  unfold iterBody TotalBehavior.toRun
  dsimp only
  rw [if_neg (h _ _)]
  cases htn : (f.analyze (stepIn st i).research_context (f.get_available_tools i)).tool_name with
  | none =>
      exact ⟨_, _, rfl, by simp [countAnalyze]⟩
  | some tn =>
      cases hta : (f.analyze (stepIn st i).research_context
          (f.get_available_tools i)).tool_args with
      | none => exact ⟨_, _, rfl, by simp [countAnalyze]⟩
      | some ta =>
          dsimp only
          by_cases hv : (f.validate tn ta).valid = true
          · rw [if_pos hv]
            exact ⟨_, _, rfl, by simp [countAnalyze]⟩
          · rw [if_neg hv]
            exact ⟨_, _, rfl, by simp [countAnalyze]⟩

/-- With a never-raising behavior whose planner never answers
"complete", the loop performs exactly one analyze per range element. -/
lemma loop_total_exact (f : TotalBehavior)
    (h : ∀ c t, (f.analyze c t).action ≠ some "complete") : ∀ (r i : Nat) (st : WorkflowState),
    countAnalyze (loopIters f.toRun i r st).1 = r := by
  intro r
  induction r with
  | zero =>
      intro i st
      simp [loopIters, countAnalyze]
  | succ n ih =>
      intro i st
      obtain ⟨evs, st1, hb, hcnt⟩ := iterBody_total_cont f h i st
      rw [loopIters_succ, hb]
      dsimp only
      rw [countAnalyze_append, hcnt, ih]
      omega

/-- The three possible event tails after the loop. -/
lemma finishRun_shape (B : RunBehavior) (ex : LoopExit) :
    (finishRun B ex).2 = [.statusSet .failed]
    ∨ (finishRun B ex).2 = [.statusSet .summarizing, .statusSet .failed]
    ∨ (finishRun B ex).2 = [.statusSet .summarizing, .statusSet .completed] := by
  cases ex with
  | failure st2 e => exact Or.inl rfl
  | finished st2 =>
      cases hs : B.summarize { st2.research_context with status := .summarizing } with
      | error e =>
          refine Or.inr (Or.inl ?_)
          unfold finishRun
          dsimp only
          rw [hs]
      | ok summ =>
          refine Or.inr (Or.inr ?_)
          unfold finishRun
          dsimp only
          rw [hs]

/-- The run's returned context keeps the loop exit state's iteration. -/
lemma finishRun_iteration (B : RunBehavior) (ex : LoopExit) :
    (finishRun B ex).1.research_context.iteration =
      ex.state.research_context.iteration := by
  cases ex with
  | failure st2 e => rfl
  | finished st2 =>
      cases hs : B.summarize { st2.research_context with status := .summarizing } with
      | error e =>
          unfold finishRun
          dsimp only
          rw [hs]
          rfl
      | ok summ =>
          unfold finishRun
          dsimp only
          rw [hs]
          rfl

/-- The post-loop tail performs no analyze, no dispatch, and assigns no
iteration value. -/
lemma finishRun_counts (B : RunBehavior) (ex : LoopExit) :
    countAnalyze (finishRun B ex).2 = 0
    ∧ countDispatch (finishRun B ex).2 = 0
    ∧ iterVals (finishRun B ex).2 = [] := by
  rcases finishRun_shape B ex with h | h | h <;> rw [h] <;>
    simp [countAnalyze, countDispatch, iterVals]

/-- Whole-run bounds: analyze and dispatch counts at most `m`, every
iteration value below `m`, final iteration at most `m`. -/
lemma run_bounds (B : RunBehavior) (q u : String) (d : Option String) (m : Nat) :
    countAnalyze (runWorkflow B q u d m).2 ≤ m
    ∧ countDispatch (runWorkflow B q u d m).2 ≤ m
    ∧ (∀ j ∈ iterVals (runWorkflow B q u d m).2, j < m)
    ∧ (runWorkflow B q u d m).1.research_context.iteration ≤ m := by
  unfold runWorkflow
  cases hp : B.plan q with
  | error e =>
      dsimp only
      refine ⟨by simp [countAnalyze], by simp [countDispatch], by simp [iterVals], ?_⟩
      exact Nat.zero_le m
  | ok planV =>
      dsimp only
      obtain ⟨l1, l2, l3⟩ := loop_counts B m 0 (plannedState q u d planV)
      obtain ⟨f1, f2, f3⟩ :=
        finishRun_counts B (loopIters B 0 m (plannedState q u d planV)).2
      refine ⟨?_, ?_, ?_, ?_⟩
      · rw [countAnalyze_append, countAnalyze_append, f1]
        have hpre : countAnalyze [Event.statusSet .starting,
            Event.statusSet .planning_complete] = 0 := by decide
        rw [hpre]
        omega
      · rw [countDispatch_append, countDispatch_append, f2]
        have hpre : countDispatch [Event.statusSet .starting,
            Event.statusSet .planning_complete] = 0 := by decide
        rw [hpre]
        omega
      · intro j hj
        rw [iterVals_append, iterVals_append, f3] at hj
        simp only [List.append_nil] at hj
        have h0 : iterVals [Event.statusSet .starting, Event.statusSet .planning_complete]
            = [] := by simp [iterVals]
        rw [h0, List.nil_append] at hj
        have := loop_iterVals B m 0 (plannedState q u d planV) j hj
        omega
      · rw [finishRun_iteration]
        exact loop_exit_iteration B m m 0 (plannedState q u d planV) (Nat.zero_le m)
          (by omega)

/-- With a never-raising behavior whose planner never answers "complete",
the whole run performs exactly `m` analyze calls. -/
lemma run_total_exact (f : TotalBehavior) (q u : String) (d : Option String) (m : Nat)
    (h : ∀ c t, (f.analyze c t).action ≠ some "complete") :
    countAnalyze (runWorkflow f.toRun q u d m).2 = m := by
  unfold runWorkflow
  have hp : f.toRun.plan q = .ok (f.plan q) := rfl
  rw [hp]
  dsimp only
  obtain ⟨f1, -, -⟩ :=
    finishRun_counts f.toRun (loopIters f.toRun 0 m (plannedState q u d (f.plan q))).2
  rw [countAnalyze_append, countAnalyze_append, f1, loop_total_exact f h]
  have hpre : countAnalyze [Event.statusSet .starting,
      Event.statusSet .planning_complete] = 0 := by decide
  rw [hpre]
  omega

/-- C1: the Agent Loop executes at most `max_iterations` tool-selection
cycles for every behavior — at most `m` next-action analyze calls, at
most `m` tool dispatches, every value assigned to `iteration` is below
`m` and the final context's `iteration` never exceeds `m`; and when the
Planner never returns `action = "complete"` (and no activity raises),
exactly `m` analyze cycles run. -/
theorem c1_loop_bounded :
    ∀ (B : RunBehavior) (f : TotalBehavior) (q u : String) (d : Option String) (m : Nat),
      countAnalyze (runWorkflow B q u d m).2 ≤ m
      ∧ countDispatch (runWorkflow B q u d m).2 ≤ m
      ∧ (∀ j ∈ iterVals (runWorkflow B q u d m).2, j < m)
      ∧ (runWorkflow B q u d m).1.research_context.iteration ≤ m
      ∧ ((∀ c t, (f.analyze c t).action ≠ some "complete") →
          countAnalyze (runWorkflow f.toRun q u d m).2 = m) := by
  intro B f q u d m
  obtain ⟨h1, h2, h3, h4⟩ := run_bounds B q u d m
  exact ⟨h1, h2, h3, h4, fun h => run_total_exact f q u d m h⟩

/-- Witness for `c1_loop_bounded`: the scenario-2 behavior (planner
proposes `arxiv_search_papers` every iteration, so never "complete")
with the default bound 10. -/
theorem c1_loop_bounded_witness :
    countAnalyze (runWorkflow searchEachIteration.toRun "X" "user" none 10).2 ≤ 10
    ∧ countDispatch (runWorkflow searchEachIteration.toRun "X" "user" none 10).2 ≤ 10
    ∧ (∀ j ∈ iterVals (runWorkflow searchEachIteration.toRun "X" "user" none 10).2, j < 10)
    ∧ (runWorkflow searchEachIteration.toRun "X" "user" none
        10).1.research_context.iteration ≤ 10
    ∧ countAnalyze (runWorkflow searchEachIteration.toRun "X" "user" none 10).2 = 10 :=
  have c := c1_loop_bounded searchEachIteration.toRun searchEachIteration "X" "user" none 10
  ⟨c.1, c.2.1, c.2.2.1, c.2.2.2.1, c.2.2.2.2
    (fun c t => by simp [searchEachIteration, mkBehavior])⟩

/-- C7: every merge appends exactly one `{tool, result, timestamp}` entry
to `tool_results` regardless of category match or success flag, and no
accumulator's length ever decreases. -/
theorem c7_merge_append_only :
    ∀ (st : WorkflowState) (tool_result : Args) (tool_name : String) (now : Nat),
      (update_context_with_results st tool_result tool_name now).research_context.tool_results
          = st.research_context.tool_results ++ [⟨tool_name, tool_result, now⟩]
      ∧ st.discovered_papers.length ≤
          (update_context_with_results st tool_result tool_name now).discovered_papers.length
      ∧ st.research_context.downloaded_papers.length ≤
          (update_context_with_results st tool_result tool_name
            now).research_context.downloaded_papers.length
      ∧ st.research_context.read_papers.length ≤
          (update_context_with_results st tool_result tool_name
            now).research_context.read_papers.length
      ∧ st.research_context.citations.length ≤
          (update_context_with_results st tool_result tool_name
            now).research_context.citations.length
      ∧ st.research_context.similar_papers.length ≤
          (update_context_with_results st tool_result tool_name
            now).research_context.similar_papers.length
      ∧ st.research_context.similarity_scores.length ≤
          (update_context_with_results st tool_result tool_name
            now).research_context.similarity_scores.length
      ∧ st.research_context.extracted_content.length ≤
          (update_context_with_results st tool_result tool_name
            now).research_context.extracted_content.length
      ∧ st.analysis_results.length ≤
          (update_context_with_results st tool_result tool_name
            now).analysis_results.length
      ∧ st.research_context.tool_results.length <
          (update_context_with_results st tool_result tool_name
            now).research_context.tool_results.length := by
  intro st tool_result tool_name now
  unfold update_context_with_results
  split_ifs <;> simp [List.length_append]

/-- C6: when validation of a proposed tool call fails at iteration `i`,
the body performs no dispatch and no merge (its event list ends at the
validate call and the carried state is `st` with only the iteration
bookkeeping applied), the body does not fail the run (it exits with
`cont`, not `failure`), and the loop proceeds to iteration `i + 1` on
that unchanged state. -/
theorem c6_validation_failure_skips :
    ∀ (B : RunBehavior) (i : Nat) (st : WorkflowState) (tools : List String)
      (na : NextAction) (tn : String) (ta : Args) (v : VResult) (r : Nat),
      B.get_available_tools i = .ok tools →
      B.analyze (stepIn st i).research_context tools = .ok na →
      na.action ≠ some "complete" →
      na.tool_name = some tn →
      na.tool_args = some ta →
      B.validate tn ta = .ok v →
      v.valid = false →
      iterBody B i st =
        ([.iterSet i, .statusSet (.iteration i), .analyzeCall, .validateCall],
          .cont (stepIn st i))
      ∧ loopIters B i (r + 1) st =
          ([.iterSet i, .statusSet (.iteration i), .analyzeCall, .validateCall]
              ++ (loopIters B (i + 1) r (stepIn st i)).1,
            (loopIters B (i + 1) r (stepIn st i)).2) := by
  intro B i st tools na tn ta v r hg ha hc htn hta hv hval
  have hbody : iterBody B i st =
      ([.iterSet i, .statusSet (.iteration i), .analyzeCall, .validateCall],
        .cont (stepIn st i)) := by
    unfold iterBody
    simp only [hg, ha]
    rw [if_neg hc]
    simp only [htn, hta, hv]
    rw [if_neg (by simp [hval])]
    simp
  refine ⟨hbody, ?_⟩
  rw [loopIters_succ, hbody]

/-- The behavior of the C6 witness: the planner proposes `process_pdf`
with empty args every iteration, which the real validator rejects
(missing required `pdf_url`). -/
def invalidProposalBehavior : TotalBehavior :=
  mkBehavior (.vDict [])
    (fun _ _ =>
      { action := some "use_tool", tool_name := some "process_pdf", tool_args := some [] })
    raisingHandlers (.vStr "summary")

/-- Witness for `c6_validation_failure_skips`: iteration 0 of a run whose
planner proposes `process_pdf` with no arguments. -/
theorem c6_validation_failure_skips_witness :
    iterBody invalidProposalBehavior.toRun 0 (plannedState "q" "u" none (.vDict [])) =
      ([.iterSet 0, .statusSet (.iteration 0), .analyzeCall, .validateCall],
        .cont (stepIn (plannedState "q" "u" none (.vDict [])) 0))
    ∧ loopIters invalidProposalBehavior.toRun 0 10 (plannedState "q" "u" none (.vDict [])) =
        ([.iterSet 0, .statusSet (.iteration 0), .analyzeCall, .validateCall]
            ++ (loopIters invalidProposalBehavior.toRun 1 9
                (stepIn (plannedState "q" "u" none (.vDict [])) 0)).1,
          (loopIters invalidProposalBehavior.toRun 1 9
              (stepIn (plannedState "q" "u" none (.vDict [])) 0)).2) :=
  c6_validation_failure_skips invalidProposalBehavior.toRun 0
    (plannedState "q" "u" none (.vDict [])) get_available_tools_act
    { action := some "use_tool", tool_name := some "process_pdf", tool_args := some [] }
    "process_pdf" [] (validate_tool_usage_act "process_pdf" []) 9
    rfl rfl (by decide) rfl rfl rfl (by decide)

/-! ## Status monotonicity (claim C8). -/

/-- The position of a status along the forward order
`initializing → planning_complete → iteration_0..m-1 → summarizing →
completed | failed` for a run with bound `m` (both terminal states sit
past `summarizing`; they never co-occur in a trace). -/
def Status.rank (m : Nat) : Status → Nat
  | .starting => 0
  | .planning_complete => 1
  | .iteration i => 2 + i
  | .summarizing => 2 + m
  | .completed => 3 + m
  | .failed => 3 + m

/-- A block of iteration statuses followed by a post-loop tail is rank
strictly increasing, provided the tail is and starts at rank at least
`2 + m`. -/
lemma chain_iterStatuses (m : Nat) (post : List Status)
    (hpost : List.Chain' (fun a b => Status.rank m a < Status.rank m b) post)
    (hhead : ∀ s ∈ post.head?, 2 + m ≤ Status.rank m s) :
    ∀ (k i : Nat), i + k ≤ m →
      List.Chain' (fun a b => Status.rank m a < Status.rank m b)
        (iterStatuses i k ++ post) := by
  intro k
  induction k with
  | zero =>
      intro i _
      simpa [iterStatuses] using hpost
  | succ n ih =>
      intro i hik
      simp only [iterStatuses, List.cons_append]
      rw [List.chain'_cons']
      refine ⟨?_, ih (i + 1) (by omega)⟩
      intro y hy
      have hri : Status.rank m (Status.iteration i) = 2 + i := rfl
      cases n with
      | zero =>
          simp only [iterStatuses, List.nil_append] at hy
          have h2 := hhead y hy
          omega
      | succ n' =>
          simp only [iterStatuses, List.cons_append, List.head?_cons,
            Option.mem_def, Option.some.injEq] at hy
          subst hy
          have hri' : Status.rank m (Status.iteration (i + 1)) = 2 + (i + 1) := rfl
          omega

/-- The full status chain of a successful planning phase: the two
initial statuses, an iteration block, and a post-loop tail. -/
lemma chain_full (m k : Nat) (hk : k ≤ m) (post : List Status)
    (hpost : List.Chain' (fun a b => Status.rank m a < Status.rank m b) post)
    (hhead : ∀ s ∈ post.head?, 2 + m ≤ Status.rank m s) :
    List.Chain' (fun a b => Status.rank m a < Status.rank m b)
      (Status.starting :: Status.planning_complete :: (iterStatuses 0 k ++ post)) := by
  rw [List.chain'_cons', List.chain'_cons']
  refine ⟨?_, ?_, chain_iterStatuses m post hpost hhead k 0 (by omega)⟩
  · intro y hy
    simp only [List.head?_cons, Option.mem_def, Option.some.injEq] at hy
    subst hy
    exact Nat.zero_lt_one
  · intro y hy
    have hr1 : Status.rank m Status.planning_complete = 1 := rfl
    cases k with
    | zero =>
        simp only [iterStatuses, List.nil_append] at hy
        have h2 := hhead y hy
        omega
    | succ n =>
        simp only [iterStatuses, List.cons_append, List.head?_cons, Option.mem_def,
          Option.some.injEq] at hy
        subst hy
        have hr2 : Status.rank m (Status.iteration 0) = 2 := rfl
        omega

/-- C8: along every run, the recorded `status` assignments are strictly
increasing in the forward order `initializing → planning_complete →
iteration_0..N → summarizing → completed|failed`: no step ever moves the
status backwards. -/
theorem c8_status_monotone :
    ∀ (B : RunBehavior) (q u : String) (d : Option String) (m : Nat),
      List.Chain' (fun a b => Status.rank m a < Status.rank m b)
        (statusTrace (runWorkflow B q u d m).2) := by
  intro B q u d m
  unfold runWorkflow
  cases hp : B.plan q with
  | error e =>
      dsimp only
      have h1 : statusTrace [Event.statusSet Status.starting, Event.statusSet Status.failed]
          = [Status.starting, Status.failed] := by decide
      rw [h1, List.chain'_cons']
      refine ⟨?_, by simp⟩
      intro y hy
      simp only [List.head?_cons, Option.mem_def, Option.some.injEq] at hy
      subst hy
      have hr : Status.rank m Status.failed = 3 + m := rfl
      have hr0 : Status.rank m Status.starting = 0 := rfl
      omega
  | ok planV =>
      dsimp only
      rw [statusTrace_append, statusTrace_append]
      have hpre : statusTrace [Event.statusSet .starting,
          Event.statusSet .planning_complete] = [.starting, .planning_complete] := by decide
      rw [hpre]
      obtain ⟨k, hk, hloop⟩ := loop_statusTrace B m 0 (plannedState q u d planV)
      rw [hloop]
      have hshape := finishRun_shape B (loopIters B 0 m (plannedState q u d planV)).2
      have hrs : Status.rank m Status.summarizing = 2 + m := rfl
      have hrf : Status.rank m Status.failed = 3 + m := rfl
      have hrc : Status.rank m Status.completed = 3 + m := rfl
      rcases hshape with hf | hf | hf <;> rw [hf] <;>
        simp only [List.cons_append, List.nil_append]
      · have hpost : statusTrace [Event.statusSet Status.failed] = [Status.failed] := by
          decide
        rw [hpost]
        exact chain_full m k hk [Status.failed] (by simp)
          (by intro s hs
              simp only [List.head?_cons, Option.mem_def, Option.some.injEq] at hs
              subst hs
              omega)
      · have hpost : statusTrace [Event.statusSet Status.summarizing,
            Event.statusSet Status.failed] = [Status.summarizing, Status.failed] := by decide
        rw [hpost]
        refine chain_full m k hk [Status.summarizing, Status.failed] ?_ ?_
        · rw [List.chain'_cons']
          exact ⟨by intro y hy
                    simp only [List.head?_cons, Option.mem_def, Option.some.injEq] at hy
                    subst hy
                    omega,
                by simp⟩
        · intro s hs
          simp only [List.head?_cons, Option.mem_def, Option.some.injEq] at hs
          subst hs
          omega
      · have hpost : statusTrace [Event.statusSet Status.summarizing,
            Event.statusSet Status.completed] =
              [Status.summarizing, Status.completed] := by decide
        rw [hpost]
        refine chain_full m k hk [Status.summarizing, Status.completed] ?_ ?_
        · rw [List.chain'_cons']
          exact ⟨by intro y hy
                    simp only [List.head?_cons, Option.mem_def, Option.some.injEq] at hy
                    subst hy
                    omega,
                by simp⟩
        · intro s hs
          simp only [List.head?_cons, Option.mem_def, Option.some.injEq] at hs
          subst hs
          omega

/-! ## End-to-end scenarios (claims C9 and C5). -/

/-- C9: if the Planner answers `{action:"complete"}` at iteration 0 (and
no activity raises), the run succeeds with `iteration = 0`, an empty
`tool_results`, no tool dispatched, status `completed`, and the summary
produced by the summarize call attached to the context and returned. -/
theorem c9_complete_at_iteration_zero :
    ∀ (f : TotalBehavior) (q u : String) (d : Option String),
      (∀ c t, (f.analyze c t).action = some "complete") →
      (runWorkflow f.toRun q u d 10).1.success = true
      ∧ (runWorkflow f.toRun q u d 10).1.research_context.iteration = 0
      ∧ (runWorkflow f.toRun q u d 10).1.research_context.tool_results = []
      ∧ (runWorkflow f.toRun q u d 10).1.research_context.status = .completed
      ∧ (runWorkflow f.toRun q u d 10).1.research_context.summary =
          some (f.summarize
            { (stepIn (plannedState q u d (f.plan q)) 0).research_context with
                status := .summarizing })
      ∧ (runWorkflow f.toRun q u d 10).1.final_summary =
          (runWorkflow f.toRun q u d 10).1.research_context.summary
      ∧ countDispatch (runWorkflow f.toRun q u d 10).2 = 0 := by
  intro f q u d h
  have hb : iterBody f.toRun 0 (plannedState q u d (f.plan q)) =
      ([.iterSet 0, .statusSet (.iteration 0), .analyzeCall],
        .broke (stepIn (plannedState q u d (f.plan q)) 0)) := by
    unfold iterBody TotalBehavior.toRun
    dsimp only
    rw [if_pos (h _ _)]
    rfl
  have hl : loopIters f.toRun 0 10 (plannedState q u d (f.plan q)) =
      ([.iterSet 0, .statusSet (.iteration 0), .analyzeCall],
        .finished (stepIn (plannedState q u d (f.plan q)) 0)) := by
    rw [show (10 : Nat) = 9 + 1 from rfl, loopIters_succ, hb]
  unfold runWorkflow
  have hp : f.toRun.plan q = .ok (f.plan q) := rfl
  rw [hp]
  dsimp only
  rw [hl]
  unfold finishRun TotalBehavior.toRun
  dsimp only
  exact ⟨rfl, rfl, rfl, rfl, rfl, rfl, by decide⟩

/-- The planner of end-to-end scenario 1: always `{action:"complete"}`. -/
def completePlanner : TotalBehavior :=
  mkBehavior (.vDict []) (fun _ _ => { action := some "complete" })
    raisingHandlers (.vStr "done")

/-- Witness for `c9_complete_at_iteration_zero`: a run of the
always-complete planner on query "vision transformer". -/
theorem c9_complete_at_iteration_zero_witness :
    (runWorkflow completePlanner.toRun "vision transformer" "user" none 10).1.success = true
    ∧ (runWorkflow completePlanner.toRun "vision transformer" "user" none
        10).1.research_context.iteration = 0
    ∧ (runWorkflow completePlanner.toRun "vision transformer" "user" none
        10).1.research_context.tool_results = []
    ∧ (runWorkflow completePlanner.toRun "vision transformer" "user" none
        10).1.research_context.status = .completed
    ∧ (runWorkflow completePlanner.toRun "vision transformer" "user" none
        10).1.research_context.summary =
          some (completePlanner.summarize
            { (stepIn (plannedState "vision transformer" "user" none
                (completePlanner.plan "vision transformer")) 0).research_context with
                status := .summarizing })
    ∧ (runWorkflow completePlanner.toRun "vision transformer" "user" none
        10).1.final_summary =
          (runWorkflow completePlanner.toRun "vision transformer" "user" none
            10).1.research_context.summary
    ∧ countDispatch (runWorkflow completePlanner.toRun "vision transformer" "user" none
        10).2 = 0 :=
  c9_complete_at_iteration_zero completePlanner "vision transformer" "user" none
    (fun _ _ => rfl)

/-- C5 (code bug): in the scenario-2 run (planner proposes
`arxiv_search_papers` with `{query:"X"}` every iteration, bound 10, the
handler returning one paper per call), exactly 10 dispatches happen and
10 results are merged, and each dispatched envelope carries its one-paper
list nested under `result` with no top-level `papers` key — so
`discovered_papers` stays empty (`papers_discovered = 0`) and
`papers_count` is never written, while the sum of the `papers` list
lengths across the 10 dispatched results is 10. -/
theorem c5_envelope_nesting_loses_papers :
    countDispatch (runWorkflow searchEachIteration.toRun "X" "user" none 10).2 = 10
    ∧ (runWorkflow searchEachIteration.toRun "X" "user" none
        10).1.research_context.tool_results.length = 10
    ∧ (∀ en ∈ (runWorkflow searchEachIteration.toRun "X" "user" none
          10).1.research_context.tool_results,
        en.tool = "arxiv_search_papers"
        ∧ argsHas en.result "papers" = false
        ∧ pyLen (dictGetD ((argsGet en.result "result").getD .vNull) "papers"
            (.vList [])) = 1)
    ∧ ((runWorkflow searchEachIteration.toRun "X" "user" none
          10).1.research_context.tool_results.map
        (fun en => pyLen (dictGetD ((argsGet en.result "result").getD .vNull) "papers"
          (.vList [])))).sum = 10
    ∧ (runWorkflow searchEachIteration.toRun "X" "user" none
        10).1.papers_discovered = 0
    ∧ (runWorkflow searchEachIteration.toRun "X" "user" none
        10).1.research_context.papers_count = none := by
  decide

end DIAOS
